import Mathlib

/-!
Shallow embedding of the AquaNav celestial navigation core
(`android/app/src/main/python/starfix_simple.py`) over the real numbers,
together with theorems settling the specification claims about it.

Machine floating point arithmetic is modelled by exact real arithmetic;
Python exceptions (`ValueError`, `ZeroDivisionError`) are modelled by
`Except` error results.
-/

namespace AquaNav

open Real

noncomputable section

/-! ### Constants and basic coordinate types -/

/-- Mean Earth radius in kilometres (`EARTH_RADIUS_KM` in the source). -/
def EARTH_RADIUS_KM : ℝ := 6371.0

/-- Error outcomes of the embedded operations.  `validationError` models the
`ValueError`s raised by the constructor range checks, `noIntersection` the
`None` result of `calculate_circle_intersection` (turned into a `ValueError`
by the callers), `zeroDivision` a Python `ZeroDivisionError`, `zeroVector`
the `ValueError` raised by `to_latlon` on a zero vector, and
`noValidIntersections` the `ValueError` raised by the multi-sight fix when
no pair produced an intersection. -/
inductive NavError where
  | validationError
  | noIntersection
  | zeroDivision
  | zeroVector
  | noValidIntersections
deriving DecidableEq

/-- Degrees to radians, as Python's `math.radians`. -/
def radians (x : ℝ) : ℝ := x * (π / 180)

/-- Radians to degrees, as Python's `math.degrees`. -/
def degreesOf (x : ℝ) : ℝ := x * (180 / π)

/-- Python's `math.atan2 y x`. -/
def atan2 (y x : ℝ) : ℝ :=
  if 0 < x then arctan (y / x)
  else if x < 0 then (if 0 ≤ y then arctan (y / x) + π else arctan (y / x) - π)
  else if 0 < y then π / 2
  else if y < 0 then -(π / 2)
  else 0

/-- Python's `%` operator on reals (sign follows the divisor):
`x % y = x - y * floor (x / y)`. -/
def pymod (x y : ℝ) : ℝ := x - y * ⌊x / y⌋

/-- `max(-1, min(1, x))`, the clamping idiom used throughout the source. -/
def clamp (x : ℝ) : ℝ := max (-1) (min 1 x)

/-- The `LatLon` class: a latitude/longitude pair in degrees.  The
constructor performs no validation and stores its arguments unchanged. -/
structure LatLon where
  lat : ℝ
  lon : ℝ

/-- `LatLon.get_lat`. -/
def LatLon.get_lat (p : LatLon) : ℝ := p.lat

/-- `LatLon.get_lon`. -/
def LatLon.get_lon (p : LatLon) : ℝ := p.lon

/-! ### Vector mathematics -/

/-- A 3-vector `[x, y, z]` as used by the source's vector helpers. -/
structure Vec3 where
  x : ℝ
  y : ℝ
  z : ℝ

/-- Sum of squared components (the radicand used by the source's magnitude
computations). -/
def normSq (v : Vec3) : ℝ := v.x ^ 2 + v.y ^ 2 + v.z ^ 2

/-- `sqrt(x**2 + y**2 + z**2)`, the vector magnitude computed in
`to_latlon` and `normalize_vect`. -/
def magnitude (v : Vec3) : ℝ := sqrt (normSq v)

/-- `to_rectangular`: latitude/longitude (degrees) to a unit 3-vector. -/
def to_rectangular (p : LatLon) : Vec3 :=
  ⟨cos (radians p.get_lat) * cos (radians p.get_lon),
   cos (radians p.get_lat) * sin (radians p.get_lon),
   sin (radians p.get_lat)⟩

/-- `to_latlon`: 3-vector back to latitude/longitude.  The source raises
`ValueError` on a zero vector, otherwise normalizes and applies `atan2`. -/
def to_latlon (v : Vec3) : Except NavError LatLon :=
  if magnitude v = 0 then .error .zeroVector
  else
    .ok ⟨degreesOf (atan2 (v.z / magnitude v)
            (sqrt ((v.x / magnitude v) ^ 2 + (v.y / magnitude v) ^ 2))),
         degreesOf (atan2 (v.y / magnitude v) (v.x / magnitude v))⟩

/-- `normalize_vect`: divide by the magnitude, returning the vector
unchanged when the magnitude is zero. -/
def normalize_vect (v : Vec3) : Vec3 :=
  if magnitude v = 0 then v
  else ⟨v.x / magnitude v, v.y / magnitude v, v.z / magnitude v⟩

/-- The dot product `sum(vec1[i]*vec2[i] for i in range(3))`. -/
def dot3 (a b : Vec3) : ℝ := a.x * b.x + a.y * b.y + a.z * b.z

/-- The cross product computed componentwise in
`calculate_circle_intersection` (the `perp` vector before normalization). -/
def cross3 (a b : Vec3) : Vec3 :=
  ⟨a.y * b.z - a.z * b.y, a.z * b.x - a.x * b.z, a.x * b.y - a.y * b.x⟩

/-- The haversine quantity `a` computed inside `spherical_distance`. -/
def haversine_a (p1 p2 : LatLon) : ℝ :=
  sin ((radians p2.get_lat - radians p1.get_lat) / 2) ^ 2 +
    cos (radians p1.get_lat) * cos (radians p2.get_lat) *
      sin ((radians p2.get_lon - radians p1.get_lon) / 2) ^ 2

/-- `spherical_distance`: great-circle distance in km via the haversine
formula. -/
def spherical_distance (p1 p2 : LatLon) : ℝ :=
  EARTH_RADIUS_KM *
    (2 * atan2 (sqrt (haversine_a p1 p2)) (sqrt (1 - haversine_a p1 p2)))

/-! ### Atmospheric corrections -/

/-- `atmospheric_refraction`: Bennett's formula, zero outside `(0, 90)`. -/
def atmospheric_refraction (altitude_deg temperature pressure : ℝ) : ℝ :=
  if altitude_deg ≤ 0 ∨ 90 ≤ altitude_deg then 0
  else
    (1 / tan (radians (altitude_deg + 7.31 / (altitude_deg + 4.4)))) *
      (pressure / 101.0) * (283.0 / (temperature + 273.15)) / 60

/-- `horizon_dip`: `1.76 * sqrt(height)` arcminutes, zero for
non-positive heights. -/
def horizon_dip (observer_height_m : ℝ) : ℝ :=
  if observer_height_m ≤ 0 then 0
  else 1.76 * sqrt observer_height_m / 60

/-! ### Hour angle calculations -/

/-- The parts of a parsed Python `datetime` consumed by `calculate_gha`:
the exact signed duration in seconds from the epoch
`datetime(2000, 1, 1, 12, 0, 0)` (the value of
`(observation_time - j2000).total_seconds()`), and the time-of-day fields
`hour`, `minute`, `second`. -/
structure DateTime where
  secondsSinceJ2000 : ℝ
  hour : ℝ
  minute : ℝ
  second : ℝ

/-- `calculate_gha`: Greenwich Hour Angle from right ascension and time. -/
def calculate_gha (ra : ℝ) (t : DateTime) : ℝ :=
  pymod
    (pymod
        (280.46061837 + 360.98564736629 * (t.secondsSinceJ2000 / 86400.0) +
          (t.hour + t.minute / 60.0 + t.second / 3600.0) * 15.0)
        360 -
      ra)
    360

/-- `calculate_lha`: Local Hour Angle. -/
def calculate_lha (gha observer_lon : ℝ) : ℝ := pymod (gha + observer_lon) 360

/-! ### The Sight class -/

/-- The fields stored on a constructed `Sight` object. -/
structure Sight where
  ra : ℝ
  dec : ℝ
  time : DateTime
  observed_altitude : ℝ
  observer_height : ℝ
  temperature : ℝ
  pressure : ℝ
  corrected_altitude : ℝ
  gha : ℝ

/-- `Sight.__init__`: validates declination and altitude (raising
`ValueError` on violation, modelled as `.error .validationError`), applies
the refraction and dip corrections, and computes the GHA.  `time` stands
for the already-parsed ISO timestamp. -/
def Sight.init (ra dec altitude : ℝ) (time : DateTime)
    (observer_height temperature pressure : ℝ)
    (apply_refraction apply_dip : Bool) : Except NavError Sight :=
  if ¬(-90 ≤ dec ∧ dec ≤ 90) then .error .validationError
  else if ¬(0 < altitude ∧ altitude < 90) then .error .validationError
  else
    .ok
      { ra := pymod ra 360
        dec := dec
        time := time
        observed_altitude := altitude
        observer_height := observer_height
        temperature := temperature
        pressure := pressure
        corrected_altitude :=
          (if apply_refraction then
              altitude - atmospheric_refraction altitude temperature pressure
            else altitude) -
            (if apply_dip ∧ 0 < observer_height then
                horizon_dip observer_height
              else 0)
        gha := calculate_gha ra time }

/-- The first normalization loop in `Sight.get_gp`:
`while gp_lon < -180: gp_lon += 360`. -/
def wrapLonAdd (x : ℝ) : ℝ :=
  if h : x < -180 then wrapLonAdd (x + 360) else x
termination_by (⌈(-180 - x) / 360⌉).toNat
decreasing_by
  have hpos : (0 : ℝ) < (-180 - x) / 360 := by
    apply div_pos ?_ (by norm_num)
    linarith
  have hceil : (1 : ℤ) ≤ ⌈(-180 - x) / 360⌉ := Int.ceil_pos.mpr hpos
  have heq : ⌈(-180 - (x + 360)) / 360⌉ = ⌈(-180 - x) / 360⌉ - 1 := by
    have harg : (-180 - (x + 360)) / 360 = (-180 - x) / 360 - 1 := by ring
    rw [harg, Int.ceil_sub_one]
  rw [heq]
  omega

/-- The second normalization loop in `Sight.get_gp`:
`while gp_lon > 180: gp_lon -= 360`. -/
def wrapLonSub (x : ℝ) : ℝ :=
  if h : 180 < x then wrapLonSub (x - 360) else x
termination_by (⌈(x - 180) / 360⌉).toNat
decreasing_by
  have hpos : (0 : ℝ) < (x - 180) / 360 := by
    apply div_pos ?_ (by norm_num)
    linarith
  have hceil : (1 : ℤ) ≤ ⌈(x - 180) / 360⌉ := Int.ceil_pos.mpr hpos
  have heq : ⌈(x - 360 - 180) / 360⌉ = ⌈(x - 180) / 360⌉ - 1 := by
    have harg : (x - 360 - 180) / 360 = (x - 180) / 360 - 1 := by ring
    rw [harg, Int.ceil_sub_one]
  rw [heq]
  omega

/-- `Sight.get_gp`: geographic position of the body — latitude is the
declination, longitude is `-gha` pushed into range by the two loops. -/
def Sight.get_gp (s : Sight) : LatLon :=
  ⟨s.dec, wrapLonSub (wrapLonAdd (-s.gha))⟩

/-- `Sight.get_distance_from_gp`: co-altitude arc length in km. -/
def Sight.get_distance_from_gp (s : Sight) : ℝ :=
  radians (90 - s.corrected_altitude) * EARTH_RADIUS_KM

/-! ### Circle of position intersection -/

/-- The dot product of the two GP unit vectors, clamped to `[-1, 1]`. -/
def gp_vec_dot (gp1 gp2 : LatLon) : ℝ :=
  clamp (dot3 (to_rectangular gp1) (to_rectangular gp2))

/-- The angular separation `d = acos(clamp(dot))` between the two GPs. -/
def gp_sep (gp1 gp2 : LatLon) : ℝ := arccos (gp_vec_dot gp1 gp2)

/-- The intersection angle `a = acos(clamp((cos r1 - cos r2 cos d) /
(sin r2 sin d)))`. -/
def intersection_angle (r1 r2 d : ℝ) : ℝ :=
  arccos (clamp ((cos r1 - cos r2 * cos d) / (sin r2 * sin d)))

/-- The normalized cross product `perp` of the two GP vectors. -/
def intersection_perp (gp1 gp2 : LatLon) : Vec3 :=
  normalize_vect (cross3 (to_rectangular gp1) (to_rectangular gp2))

/-- One intersection candidate before normalization:
`vec1[i] * c + perp[i] * s` componentwise (`c = cos a`,
`s = ± sin a * sin d`). -/
def rotated_candidate (vec1 perp : Vec3) (c s : ℝ) : Vec3 :=
  ⟨vec1.x * c + perp.x * s, vec1.y * c + perp.y * s, vec1.z * c + perp.z * s⟩

/-- The non-degenerate tail of `calculate_circle_intersection`: build the
two candidate vectors, normalize them and convert both to `LatLon`
(the first conversion's error surfaces first, as in the source). -/
def candidate_points (gp1 : LatLon) (dist1 : ℝ) (gp2 : LatLon) (dist2 : ℝ) :
    Except NavError (LatLon × LatLon) :=
  match
    to_latlon (normalize_vect (rotated_candidate (to_rectangular gp1)
      (intersection_perp gp1 gp2)
      (cos (intersection_angle (dist1 / EARTH_RADIUS_KM)
        (dist2 / EARTH_RADIUS_KM) (gp_sep gp1 gp2)))
      (sin (intersection_angle (dist1 / EARTH_RADIUS_KM)
        (dist2 / EARTH_RADIUS_KM) (gp_sep gp1 gp2)) * sin (gp_sep gp1 gp2)))),
    to_latlon (normalize_vect (rotated_candidate (to_rectangular gp1)
      (intersection_perp gp1 gp2)
      (cos (intersection_angle (dist1 / EARTH_RADIUS_KM)
        (dist2 / EARTH_RADIUS_KM) (gp_sep gp1 gp2)))
      (-(sin (intersection_angle (dist1 / EARTH_RADIUS_KM)
        (dist2 / EARTH_RADIUS_KM) (gp_sep gp1 gp2)) * sin (gp_sep gp1 gp2)))))
  with
  | .ok p1, .ok p2 => .ok (p1, p2)
  | .error e, _ => .error e
  | .ok _, .error e => .error e

/-- `calculate_circle_intersection`: classification of the two circles of
position followed by the candidate construction.  A Python
`ZeroDivisionError` on the intersection-angle division is modelled by the
explicit `sin r2 * sin d = 0` test (real division itself is total). -/
def calculate_circle_intersection (gp1 : LatLon) (dist1 : ℝ) (gp2 : LatLon)
    (dist2 : ℝ) : Except NavError (LatLon × LatLon) :=
  if dist1 / EARTH_RADIUS_KM + dist2 / EARTH_RADIUS_KM < gp_sep gp1 gp2 then
    .error .noIntersection
  else if gp_sep gp1 gp2 <
      |dist1 / EARTH_RADIUS_KM - dist2 / EARTH_RADIUS_KM| then
    .error .noIntersection
  else if gp_sep gp1 gp2 = 0 ∧
      1e-10 < |dist1 / EARTH_RADIUS_KM - dist2 / EARTH_RADIUS_KM| then
    .error .noIntersection
  else if sin (dist2 / EARTH_RADIUS_KM) * sin (gp_sep gp1 gp2) = 0 then
    .error .zeroDivision
  else candidate_points gp1 dist1 gp2 dist2

/-! ### SightCollection -/

/-- `SightCollection.__init__`: requires at least two sights. -/
def SightCollection.init (sights : List Sight) :
    Except NavError (List Sight) :=
  if sights.length < 2 then .error .validationError else .ok sights

/-- The candidate selection shared by the two fix paths: with an estimate,
the candidate at the smaller great-circle distance (ties going to the
second); without one, the first candidate. -/
def choose_point (est : Option LatLon) (i1 i2 : LatLon) : LatLon :=
  match est with
  | some e =>
    if spherical_distance e i1 < spherical_distance e i2 then i1 else i2
  | none => i1

/-- `SightCollection._calculate_two_sight_fix`. -/
def calculate_two_sight_fix (s1 s2 : Sight) (est : Option LatLon) :
    Except NavError LatLon :=
  match calculate_circle_intersection s1.get_gp s1.get_distance_from_gp
      s2.get_gp s2.get_distance_from_gp with
  | .error e => .error e
  | .ok (i1, i2) => .ok (choose_point est i1 i2)

/-- All unordered index pairs `i < j` in loop order, as the nested
`for i / for j in range(i+1, ...)` loops generate them. -/
def allPairs {α : Type} : List α → List (α × α)
  | [] => []
  | a :: rest => rest.map (fun b => (a, b)) ++ allPairs rest

/-- The pairwise loop of `_calculate_multi_sight_fix`: accumulate the
chosen point of every pair that intersects, skip pairs classified as
non-intersecting, and abort on any other pair error (a propagating Python
exception). -/
def collectPositions (pairs : List (Sight × Sight)) (est : Option LatLon) :
    Except NavError (List LatLon) :=
  match pairs with
  | [] => .ok []
  | (s, t) :: rest =>
    match calculate_circle_intersection s.get_gp s.get_distance_from_gp
        t.get_gp t.get_distance_from_gp with
    | .ok (i1, i2) =>
      match collectPositions rest est with
      | .ok ps => .ok (choose_point est i1 i2 :: ps)
      | .error e => .error e
    | .error .noIntersection => collectPositions rest est
    | .error e => .error e

/-- The componentwise arithmetic mean `[sum(vec[i]) / len(vectors)]`. -/
def meanVec (vs : List Vec3) : Vec3 :=
  ⟨(vs.map Vec3.x).sum / vs.length, (vs.map Vec3.y).sum / vs.length,
   (vs.map Vec3.z).sum / vs.length⟩

/-- `SightCollection._calculate_multi_sight_fix`. -/
def calculate_multi_sight_fix (sights : List Sight) (est : Option LatLon) :
    Except NavError LatLon :=
  match collectPositions (allPairs sights) est with
  | .error e => .error e
  | .ok positions =>
    if positions.length = 0 then .error .noValidIntersections
    else to_latlon (normalize_vect (meanVec (positions.map to_rectangular)))

/-- `SightCollection.get_intersections`: dispatch on the number of
sights. -/
def get_intersections (sights : List Sight) (est : Option LatLon) :
    Except NavError LatLon :=
  match sights with
  | [s1, s2] => calculate_two_sight_fix s1 s2 est
  | _ => calculate_multi_sight_fix sights est

/-! ### Specification-side definitions

These definitions restate the specification's own words, to be compared
against the code-derived definitions above. -/

/-- The selection applied to one pair of sights: `none` when the pair's
circles of position do not intersect, otherwise the chosen candidate. -/
def pair_choice (est : Option LatLon) (p : Sight × Sight) : Option LatLon :=
  match calculate_circle_intersection p.1.get_gp p.1.get_distance_from_gp
      p.2.get_gp p.2.get_distance_from_gp with
  | .ok (i1, i2) => some (choose_point est i1 i2)
  | .error _ => none

/-- Following the specification text (section 4.6): the chosen point of
every unordered pair of sights whose circles of position intersect. -/
def spec_chosen_points (sights : List Sight) (est : Option LatLon) :
    List LatLon :=
  (allPairs sights).filterMap (pair_choice est)

/-- Following the specification text (section 4.6): convert each chosen
point to a unit vector, take the componentwise arithmetic mean, normalize
it, and convert back to a position. -/
def spec_average_fix (positions : List LatLon) : Except NavError LatLon :=
  to_latlon (normalize_vect (meanVec (positions.map to_rectangular)))

/-- Following the specification text (section 4.3): days since the epoch
2000-01-01T12:00:00 UTC. -/
def spec_days_since_epoch (t : DateTime) : ℝ := t.secondsSinceJ2000 / 86400

/-- Following the specification text (section 4.3): GMST from the linear
approximation plus the fractional-day rotation at 15 degrees per hour,
normalized to `[0, 360)`. -/
def spec_gmst (t : DateTime) : ℝ :=
  pymod
    (280.46061837 + 360.98564736629 * spec_days_since_epoch t +
      (t.hour + t.minute / 60 + t.second / 3600) * 15)
    360

/-- Following the specification text (section 4.3):
`GHA = normalize(GMST - RA)`. -/
def spec_gha (ra : ℝ) (t : DateTime) : ℝ := pymod (spec_gmst t - ra) 360

/-! ### Concrete test fixtures used by witnesses and counterexamples -/

/-- A placeholder observation time (the GHA fields of the test sights are
set directly). -/
def t0 : DateTime := ⟨0, 0, 0, 0⟩

/-- The epoch `2000-01-01T12:00:00` itself as a `DateTime`. -/
def j2000_noon : DateTime := ⟨0, 12, 0, 0⟩

/-- A sight whose geographic position is latitude 0, longitude 0, with
corrected altitude 45 degrees (angular radius pi/4). -/
def sightA : Sight := ⟨0, 0, t0, 45, 0, 10, 101, 45, 0⟩

/-- A sight whose geographic position is latitude 0, longitude 90 (GHA
270), with corrected altitude 45 degrees. -/
def sightB : Sight := ⟨0, 0, t0, 45, 0, 10, 101, 45, 270⟩

/-- A sight whose geographic position is latitude 0, longitude -180 (GHA
180), with corrected altitude 45 degrees. -/
def sightC : Sight := ⟨0, 0, t0, 45, 0, 10, 101, 45, 180⟩

/-- The common test distance: angular radius pi/4 scaled to km. -/
def qdist : ℝ := radians 45 * EARTH_RADIUS_KM

/-- A sight constructed exactly as `Sight.__init__` does from right
ascension 280.46061837, declination 0, altitude 45, at the epoch noon:
its GHA evaluates to exactly 180. -/
def c7_sight : Sight :=
  { ra := 280.46061837
    dec := 0
    time := j2000_noon
    observed_altitude := 45
    observer_height := 0
    temperature := 10
    pressure := 101
    corrected_altitude := 45 - atmospheric_refraction 45 10 101
    gha := calculate_gha 280.46061837 j2000_noon }

end

/-! ## Helper lemmas -/

theorem pymod_eq_fract (x y : ℝ) (hy : y ≠ 0) :
    pymod x y = y * Int.fract (x / y) := by
  unfold pymod Int.fract
  field_simp

theorem pymod_nonneg (x y : ℝ) (hy : 0 < y) : 0 ≤ pymod x y := by
  rw [pymod_eq_fract x y (ne_of_gt hy)]
  exact mul_nonneg hy.le (Int.fract_nonneg _)

theorem pymod_lt (x y : ℝ) (hy : 0 < y) : pymod x y < y := by
  rw [pymod_eq_fract x y (ne_of_gt hy)]
  calc y * Int.fract (x / y) < y * 1 :=
        (mul_lt_mul_left hy).mpr (Int.fract_lt_one _)
    _ = y := mul_one y

theorem wrapLonAdd_of_lt {x : ℝ} (h : x < -180) :
    wrapLonAdd x = wrapLonAdd (x + 360) := by
  rw [wrapLonAdd]
  simp [h]

theorem wrapLonAdd_of_ge {x : ℝ} (h : -180 ≤ x) : wrapLonAdd x = x := by
  rw [wrapLonAdd]
  simp [not_lt.mpr h]

theorem wrapLonSub_of_gt {x : ℝ} (h : 180 < x) :
    wrapLonSub x = wrapLonSub (x - 360) := by
  rw [wrapLonSub]
  simp [h]

theorem wrapLonSub_of_le {x : ℝ} (h : x ≤ 180) : wrapLonSub x = x := by
  rw [wrapLonSub]
  simp [not_lt.mpr h]

theorem normSq_nonneg (v : Vec3) : 0 ≤ normSq v := by
  unfold normSq
  positivity

theorem magnitude_eq_zero_iff (v : Vec3) : magnitude v = 0 ↔ normSq v = 0 := by
  unfold magnitude
  rw [sqrt_eq_zero (normSq_nonneg v)]

theorem magnitude_sq (v : Vec3) : magnitude v ^ 2 = normSq v :=
  sq_sqrt (normSq_nonneg v)

theorem normSq_normalize_vect {v : Vec3} (h : magnitude v ≠ 0) :
    normSq (normalize_vect v) = 1 := by
  have hm : magnitude v ^ 2 = normSq v := magnitude_sq v
  unfold normalize_vect
  rw [if_neg h]
  unfold normSq at hm ⊢
  field_simp
  linarith

theorem magnitude_normalize_vect {v : Vec3} (h : magnitude v ≠ 0) :
    magnitude (normalize_vect v) = 1 := by
  unfold magnitude
  rw [normSq_normalize_vect h, sqrt_one]

theorem to_latlon_ok {v : Vec3} (h : magnitude v ≠ 0) :
    ∃ p, to_latlon v = Except.ok p := by
  unfold to_latlon
  rw [if_neg h]
  exact ⟨_, rfl⟩

theorem to_latlon_error {v : Vec3} {e : NavError}
    (h : to_latlon v = Except.error e) : e = NavError.zeroVector := by
  unfold to_latlon at h
  by_cases hm : magnitude v = 0
  · rw [if_pos hm] at h
    exact (Except.error.injEq _ _).mp h.symm
  · rw [if_neg hm] at h
    exact absurd h (by simp)

theorem to_rectangular_normSq (p : LatLon) : normSq (to_rectangular p) = 1 := by
  unfold normSq to_rectangular
  have h1 : sin (radians p.get_lat) ^ 2 + cos (radians p.get_lat) ^ 2 = 1 :=
    sin_sq_add_cos_sq _
  have h2 : sin (radians p.get_lon) ^ 2 + cos (radians p.get_lon) ^ 2 = 1 :=
    sin_sq_add_cos_sq _
  dsimp only
  nlinarith [h1, h2]

theorem lagrange_identity (a b : Vec3) :
    dot3 a b ^ 2 + normSq (cross3 a b) = normSq a * normSq b := by
  unfold dot3 cross3 normSq
  dsimp only
  ring

theorem dot3_sq_le_one {a b : Vec3} (ha : normSq a = 1) (hb : normSq b = 1) :
    dot3 a b ^ 2 ≤ 1 := by
  have h := lagrange_identity a b
  rw [ha, hb] at h
  nlinarith [normSq_nonneg (cross3 a b)]

theorem clamp_of_mem {x : ℝ} (h1 : -1 ≤ x) (h2 : x ≤ 1) : clamp x = x := by
  unfold clamp
  rw [min_eq_right h2, max_eq_right h1]

theorem neg_one_le_clamp (x : ℝ) : -1 ≤ clamp x := le_max_left _ _

theorem clamp_le_one (x : ℝ) : clamp x ≤ 1 := by
  unfold clamp
  exact max_le (by norm_num) (min_le_left _ _)

theorem gp_vec_dot_eq (gp1 gp2 : LatLon) :
    gp_vec_dot gp1 gp2 = dot3 (to_rectangular gp1) (to_rectangular gp2) := by
  have hsq : dot3 (to_rectangular gp1) (to_rectangular gp2) ^ 2 ≤ 1 :=
    dot3_sq_le_one (to_rectangular_normSq gp1) (to_rectangular_normSq gp2)
  have h1 : -1 ≤ dot3 (to_rectangular gp1) (to_rectangular gp2) := by
    nlinarith [sq_nonneg (dot3 (to_rectangular gp1) (to_rectangular gp2) + 1)]
  have h2 : dot3 (to_rectangular gp1) (to_rectangular gp2) ≤ 1 := by
    nlinarith [sq_nonneg (dot3 (to_rectangular gp1) (to_rectangular gp2) - 1)]
  exact clamp_of_mem h1 h2

theorem rotated_normSq {v p : Vec3} (hv : normSq v = 1) (hp : normSq p = 1)
    (hvp : dot3 v p = 0) (c s : ℝ) :
    normSq (rotated_candidate v p c s) = c ^ 2 + s ^ 2 := by
  unfold normSq rotated_candidate at *
  unfold dot3 at hvp
  dsimp only at *
  linear_combination c ^ 2 * hv + s ^ 2 * hp + 2 * c * s * hvp

theorem dot3_cross_left (a b : Vec3) : dot3 a (cross3 a b) = 0 := by
  unfold dot3 cross3
  dsimp only
  ring

theorem dot3_normalize_cross (v w : Vec3) :
    dot3 v (normalize_vect (cross3 v w)) = 0 := by
  unfold normalize_vect
  by_cases h : magnitude (cross3 v w) = 0
  · rw [if_pos h]
    exact dot3_cross_left v w
  · rw [if_neg h]
    have h0 := dot3_cross_left v w
    unfold dot3 at h0 ⊢
    dsimp only at h0 ⊢
    field_simp
    linarith [h0]

theorem sin_gp_sep (gp1 gp2 : LatLon) :
    sin (gp_sep gp1 gp2) = sqrt (1 - gp_vec_dot gp1 gp2 ^ 2) := by
  unfold gp_sep
  exact sin_arccos _

theorem cos_intersection_angle (r1 r2 d : ℝ) :
    cos (intersection_angle r1 r2 d) =
      clamp ((cos r1 - cos r2 * cos d) / (sin r2 * sin d)) := by
  unfold intersection_angle
  exact cos_arccos (neg_one_le_clamp _) (clamp_le_one _)

theorem candidate_points_ok (gp1 : LatLon) (dist1 : ℝ) (gp2 : LatLon)
    (dist2 : ℝ)
    (hden : sin (dist2 / EARTH_RADIUS_KM) * sin (gp_sep gp1 gp2) ≠ 0) :
    ∃ p q, candidate_points gp1 dist1 gp2 dist2 = Except.ok (p, q) := by
  obtain ⟨hr2, hsd⟩ := mul_ne_zero_iff.mp hden
  have hv1 : normSq (to_rectangular gp1) = 1 := to_rectangular_normSq gp1
  have hv2 : normSq (to_rectangular gp2) = 1 := to_rectangular_normSq gp2
  have ht : gp_vec_dot gp1 gp2 =
      dot3 (to_rectangular gp1) (to_rectangular gp2) := gp_vec_dot_eq gp1 gp2
  have ht2 : 0 < 1 - gp_vec_dot gp1 gp2 ^ 2 := by
    by_contra hc
    push_neg at hc
    exact hsd (by rw [sin_gp_sep, sqrt_eq_zero']; linarith)
  have hcross :
      normSq (cross3 (to_rectangular gp1) (to_rectangular gp2)) =
        1 - gp_vec_dot gp1 gp2 ^ 2 := by
    have h := lagrange_identity (to_rectangular gp1) (to_rectangular gp2)
    rw [hv1, hv2, ← ht] at h
    linarith
  have hcm : magnitude (cross3 (to_rectangular gp1) (to_rectangular gp2)) ≠ 0 := by
    rw [Ne, magnitude_eq_zero_iff, hcross]
    linarith
  have hperp : normSq (intersection_perp gp1 gp2) = 1 := by
    unfold intersection_perp
    exact normSq_normalize_vect hcm
  have hvperp : dot3 (to_rectangular gp1) (intersection_perp gp1 gp2) = 0 := by
    unfold intersection_perp
    exact dot3_normalize_cross (to_rectangular gp1) (to_rectangular gp2)
  unfold candidate_points
  set C := cos (intersection_angle (dist1 / EARTH_RADIUS_KM)
    (dist2 / EARTH_RADIUS_KM) (gp_sep gp1 gp2)) with hCdef
  set S := sin (intersection_angle (dist1 / EARTH_RADIUS_KM)
    (dist2 / EARTH_RADIUS_KM) (gp_sep gp1 gp2)) * sin (gp_sep gp1 gp2)
    with hSdef
  have hC2 : C ^ 2 ≤ 1 := by
    rw [hCdef]
    nlinarith [neg_one_le_cos (intersection_angle (dist1 / EARTH_RADIUS_KM)
        (dist2 / EARTH_RADIUS_KM) (gp_sep gp1 gp2)),
      cos_le_one (intersection_angle (dist1 / EARTH_RADIUS_KM)
        (dist2 / EARTH_RADIUS_KM) (gp_sep gp1 gp2))]
  have hS2 : S ^ 2 = (1 - C ^ 2) * sin (gp_sep gp1 gp2) ^ 2 := by
    rw [hSdef, hCdef, mul_pow, sin_sq]
  have hsd2 : 0 < sin (gp_sep gp1 gp2) ^ 2 :=
    lt_of_le_of_ne (sq_nonneg _) (Ne.symm (pow_ne_zero 2 hsd))
  have hpos : 0 < C ^ 2 + S ^ 2 := by
    by_cases hc0 : C = 0
    · rw [hc0] at hS2 ⊢
      rw [hS2]
      simpa using hsd2
    · have : 0 < C ^ 2 :=
        lt_of_le_of_ne (sq_nonneg _) (Ne.symm (pow_ne_zero 2 hc0))
      nlinarith [sq_nonneg S]
  have hmag1 : magnitude (rotated_candidate (to_rectangular gp1)
      (intersection_perp gp1 gp2) C S) ≠ 0 := by
    rw [Ne, magnitude_eq_zero_iff, rotated_normSq hv1 hperp hvperp]
    linarith
  have hmag2 : magnitude (rotated_candidate (to_rectangular gp1)
      (intersection_perp gp1 gp2) C (-S)) ≠ 0 := by
    rw [Ne, magnitude_eq_zero_iff, rotated_normSq hv1 hperp hvperp, neg_sq]
    linarith
  have hn1 : magnitude (normalize_vect (rotated_candidate (to_rectangular gp1)
      (intersection_perp gp1 gp2) C S)) ≠ 0 := by
    rw [magnitude_normalize_vect hmag1]
    norm_num
  have hn2 : magnitude (normalize_vect (rotated_candidate (to_rectangular gp1)
      (intersection_perp gp1 gp2) C (-S))) ≠ 0 := by
    rw [magnitude_normalize_vect hmag2]
    norm_num
  obtain ⟨p1, hp1⟩ := to_latlon_ok hn1
  obtain ⟨p2, hp2⟩ := to_latlon_ok hn2
  rw [hp1, hp2]
  exact ⟨p1, p2, rfl⟩

theorem candidate_points_error {gp1 : LatLon} {dist1 : ℝ} {gp2 : LatLon}
    {dist2 : ℝ} {e : NavError}
    (h : candidate_points gp1 dist1 gp2 dist2 = Except.error e) :
    e = NavError.zeroVector := by
  unfold candidate_points at h
  revert h
  rcases hA : to_latlon (normalize_vect (rotated_candidate (to_rectangular gp1)
      (intersection_perp gp1 gp2)
      (cos (intersection_angle (dist1 / EARTH_RADIUS_KM)
        (dist2 / EARTH_RADIUS_KM) (gp_sep gp1 gp2)))
      (sin (intersection_angle (dist1 / EARTH_RADIUS_KM)
        (dist2 / EARTH_RADIUS_KM) (gp_sep gp1 gp2)) *
        sin (gp_sep gp1 gp2)))) with eA | pA
  · intro h
    have heA : eA = e := by simpa using h
    rw [← heA]
    exact to_latlon_error hA
  · rcases hB : to_latlon (normalize_vect (rotated_candidate
        (to_rectangular gp1) (intersection_perp gp1 gp2)
        (cos (intersection_angle (dist1 / EARTH_RADIUS_KM)
          (dist2 / EARTH_RADIUS_KM) (gp_sep gp1 gp2)))
        (-(sin (intersection_angle (dist1 / EARTH_RADIUS_KM)
          (dist2 / EARTH_RADIUS_KM) (gp_sep gp1 gp2)) *
          sin (gp_sep gp1 gp2))))) with eB | pB
    · intro h
      have heB : eB = e := by simpa using h
      rw [← heB]
      exact to_latlon_error hB
    · intro h
      simp at h

theorem abs_sub_pos_of_ne {a b : ℝ} (h : a ≠ b) : 0 < |a - b| :=
  abs_pos.mpr (sub_ne_zero.mpr h)

theorem cci_noInter_iff (gp1 : LatLon) (dist1 : ℝ) (gp2 : LatLon)
    (dist2 : ℝ) :
    calculate_circle_intersection gp1 dist1 gp2 dist2 =
        Except.error NavError.noIntersection ↔
      (dist1 / EARTH_RADIUS_KM + dist2 / EARTH_RADIUS_KM < gp_sep gp1 gp2 ∨
        gp_sep gp1 gp2 < |dist1 / EARTH_RADIUS_KM - dist2 / EARTH_RADIUS_KM| ∨
        (gp_sep gp1 gp2 = 0 ∧
          dist1 / EARTH_RADIUS_KM ≠ dist2 / EARTH_RADIUS_KM)) := by
  unfold calculate_circle_intersection
  split_ifs with h1 h2 h3 h4
  · exact iff_of_true rfl (Or.inl h1)
  · exact iff_of_true rfl (Or.inr (Or.inl h2))
  · refine iff_of_true rfl (Or.inr (Or.inr ⟨h3.1, ?_⟩))
    have hgt : (0 : ℝ) <
        |dist1 / EARTH_RADIUS_KM - dist2 / EARTH_RADIUS_KM| :=
      lt_trans (by norm_num) h3.2
    exact sub_ne_zero.mp (abs_pos.mp hgt)
  · refine iff_of_false (by simp) ?_
    rintro (hc | hc | ⟨hd0, hne⟩)
    · exact h1 hc
    · exact h2 hc
    · exact h2 (hd0 ▸ abs_sub_pos_of_ne hne)
  · refine iff_of_false ?_ ?_
    · intro hc
      exact absurd (candidate_points_error hc) (by decide)
    · rintro (hc | hc | ⟨hd0, hne⟩)
      · exact h1 hc
      · exact h2 hc
      · exact h2 (hd0 ▸ abs_sub_pos_of_ne hne)

theorem cci_zeroDiv_iff (gp1 : LatLon) (dist1 : ℝ) (gp2 : LatLon)
    (dist2 : ℝ) :
    calculate_circle_intersection gp1 dist1 gp2 dist2 =
        Except.error NavError.zeroDivision ↔
      (¬(dist1 / EARTH_RADIUS_KM + dist2 / EARTH_RADIUS_KM < gp_sep gp1 gp2 ∨
          gp_sep gp1 gp2 <
            |dist1 / EARTH_RADIUS_KM - dist2 / EARTH_RADIUS_KM| ∨
          (gp_sep gp1 gp2 = 0 ∧
            dist1 / EARTH_RADIUS_KM ≠ dist2 / EARTH_RADIUS_KM)) ∧
        sin (dist2 / EARTH_RADIUS_KM) * sin (gp_sep gp1 gp2) = 0) := by
  unfold calculate_circle_intersection
  split_ifs with h1 h2 h3 h4
  · exact iff_of_false (by simp) (fun hc => hc.1 (Or.inl h1))
  · exact iff_of_false (by simp) (fun hc => hc.1 (Or.inr (Or.inl h2)))
  · refine iff_of_false (by simp) (fun hc => hc.1 (Or.inr (Or.inr ⟨h3.1, ?_⟩)))
    have hgt : (0 : ℝ) <
        |dist1 / EARTH_RADIUS_KM - dist2 / EARTH_RADIUS_KM| :=
      lt_trans (by norm_num) h3.2
    exact sub_ne_zero.mp (abs_pos.mp hgt)
  · refine iff_of_true rfl ⟨?_, h4⟩
    rintro (hc | hc | ⟨hd0, hne⟩)
    · exact h1 hc
    · exact h2 hc
    · exact h2 (hd0 ▸ abs_sub_pos_of_ne hne)
  · refine iff_of_false ?_ (fun hc => h4 hc.2)
    intro hc
    exact absurd (candidate_points_error hc) (by decide)

theorem cci_ok_of (gp1 : LatLon) (dist1 : ℝ) (gp2 : LatLon) (dist2 : ℝ)
    (hcond :
      ¬(dist1 / EARTH_RADIUS_KM + dist2 / EARTH_RADIUS_KM < gp_sep gp1 gp2 ∨
        gp_sep gp1 gp2 < |dist1 / EARTH_RADIUS_KM - dist2 / EARTH_RADIUS_KM| ∨
        (gp_sep gp1 gp2 = 0 ∧
          dist1 / EARTH_RADIUS_KM ≠ dist2 / EARTH_RADIUS_KM)))
    (hden : sin (dist2 / EARTH_RADIUS_KM) * sin (gp_sep gp1 gp2) ≠ 0) :
    ∃ p q, calculate_circle_intersection gp1 dist1 gp2 dist2 =
      Except.ok (p, q) := by
  push_neg at hcond
  obtain ⟨hc1, hc2, hc3⟩ := hcond
  have h3 : ¬(gp_sep gp1 gp2 = 0 ∧
      1e-10 < |dist1 / EARTH_RADIUS_KM - dist2 / EARTH_RADIUS_KM|) := by
    rintro ⟨hd0, habs⟩
    have hne : dist1 / EARTH_RADIUS_KM ≠ dist2 / EARTH_RADIUS_KM := by
      have hgt : (0 : ℝ) <
          |dist1 / EARTH_RADIUS_KM - dist2 / EARTH_RADIUS_KM| :=
        lt_trans (by norm_num) habs
      exact sub_ne_zero.mp (abs_pos.mp hgt)
    exact hne (hc3 hd0)
  unfold calculate_circle_intersection
  rw [if_neg (not_lt.mpr hc1), if_neg (not_lt.mpr hc2), if_neg h3,
    if_neg hden]
  exact candidate_points_ok gp1 dist1 gp2 dist2 hden

/-! ## Concrete evaluations on the test fixtures -/

theorem to_rect_00 : to_rectangular ⟨0, 0⟩ = ⟨1, 0, 0⟩ := by
  unfold to_rectangular LatLon.get_lat LatLon.get_lon radians
  dsimp only
  norm_num

theorem to_rect_090 : to_rectangular ⟨0, 90⟩ = ⟨0, 1, 0⟩ := by
  unfold to_rectangular LatLon.get_lat LatLon.get_lon radians
  dsimp only
  rw [show (90 : ℝ) * (π / 180) = π / 2 by ring]
  norm_num

theorem to_rect_0n180 : to_rectangular ⟨0, -180⟩ = ⟨-1, 0, 0⟩ := by
  unfold to_rectangular LatLon.get_lat LatLon.get_lon radians
  dsimp only
  rw [show (-180 : ℝ) * (π / 180) = -π by ring]
  norm_num

theorem get_gp_A : sightA.get_gp = ⟨0, 0⟩ := by
  unfold Sight.get_gp sightA
  dsimp only
  rw [neg_zero, wrapLonAdd_of_ge (by norm_num), wrapLonSub_of_le (by norm_num)]

theorem get_gp_B : sightB.get_gp = ⟨0, 90⟩ := by
  unfold Sight.get_gp sightB
  dsimp only
  rw [wrapLonAdd_of_lt (by norm_num), show (-270 : ℝ) + 360 = 90 by norm_num,
    wrapLonAdd_of_ge (by norm_num), wrapLonSub_of_le (by norm_num)]

theorem get_gp_C : sightC.get_gp = ⟨0, -180⟩ := by
  unfold Sight.get_gp sightC
  dsimp only
  rw [wrapLonAdd_of_ge (by norm_num), wrapLonSub_of_le (by norm_num)]

theorem dist_of_corrected_45 (s : Sight) (h : s.corrected_altitude = 45) :
    s.get_distance_from_gp = qdist := by
  unfold Sight.get_distance_from_gp qdist
  rw [h]
  norm_num

theorem dist_A : sightA.get_distance_from_gp = qdist :=
  dist_of_corrected_45 sightA rfl

theorem dist_B : sightB.get_distance_from_gp = qdist :=
  dist_of_corrected_45 sightB rfl

theorem dist_C : sightC.get_distance_from_gp = qdist :=
  dist_of_corrected_45 sightC rfl

theorem qdist_r : qdist / EARTH_RADIUS_KM = π / 4 := by
  unfold qdist radians EARTH_RADIUS_KM
  norm_num
  ring

theorem sep_AB : gp_sep ⟨0, 0⟩ ⟨0, 90⟩ = π / 2 := by
  unfold gp_sep gp_vec_dot
  rw [to_rect_00, to_rect_090]
  unfold dot3 clamp
  dsimp only
  norm_num [arccos_zero]

theorem sep_AA : gp_sep ⟨0, 0⟩ ⟨0, 0⟩ = 0 := by
  unfold gp_sep gp_vec_dot
  rw [to_rect_00]
  unfold dot3 clamp
  dsimp only
  norm_num [arccos_one]

theorem sep_AC : gp_sep ⟨0, 0⟩ ⟨0, -180⟩ = π := by
  unfold gp_sep gp_vec_dot
  rw [to_rect_00, to_rect_0n180]
  unfold dot3 clamp
  dsimp only
  norm_num [arccos_neg_one]

theorem sep_BC : gp_sep ⟨0, 90⟩ ⟨0, -180⟩ = π / 2 := by
  unfold gp_sep gp_vec_dot
  rw [to_rect_090, to_rect_0n180]
  unfold dot3 clamp
  dsimp only
  norm_num [arccos_zero]

theorem ia_eval : intersection_angle (π / 4) (π / 4) (π / 2) = 0 := by
  unfold intersection_angle
  rw [cos_pi_div_two, sin_pi_div_two, mul_zero, sub_zero, mul_one,
    cos_pi_div_four, sin_pi_div_four,
    div_self (by positivity : sqrt 2 / 2 ≠ 0),
    clamp_of_mem (by norm_num) le_rfl, arccos_one]

theorem atan2_zero_one : atan2 0 1 = 0 := by
  unfold atan2
  rw [if_pos (by norm_num : (0 : ℝ) < 1)]
  norm_num

theorem atan2_one_zero : atan2 1 0 = π / 2 := by
  unfold atan2
  norm_num

theorem degreesOf_zero : degreesOf 0 = 0 := by
  unfold degreesOf
  ring

theorem degreesOf_pi_div_two : degreesOf (π / 2) = 90 := by
  unfold degreesOf
  have hπ : π ≠ 0 := pi_ne_zero
  field_simp
  ring

theorem magnitude_100 : magnitude ⟨1, 0, 0⟩ = 1 := by
  unfold magnitude normSq
  dsimp only
  norm_num

theorem magnitude_010 : magnitude ⟨0, 1, 0⟩ = 1 := by
  unfold magnitude normSq
  dsimp only
  norm_num

theorem magnitude_001 : magnitude ⟨0, 0, 1⟩ = 1 := by
  unfold magnitude normSq
  dsimp only
  norm_num

theorem normalize_100 : normalize_vect ⟨1, 0, 0⟩ = ⟨1, 0, 0⟩ := by
  unfold normalize_vect
  rw [if_neg (by rw [magnitude_100]; norm_num), magnitude_100]
  norm_num

theorem normalize_010 : normalize_vect ⟨0, 1, 0⟩ = ⟨0, 1, 0⟩ := by
  unfold normalize_vect
  rw [if_neg (by rw [magnitude_010]; norm_num), magnitude_010]
  norm_num

theorem normalize_001 : normalize_vect ⟨0, 0, 1⟩ = ⟨0, 0, 1⟩ := by
  unfold normalize_vect
  rw [if_neg (by rw [magnitude_001]; norm_num), magnitude_001]
  norm_num

theorem to_latlon_100 : to_latlon ⟨1, 0, 0⟩ = Except.ok ⟨0, 0⟩ := by
  unfold to_latlon
  rw [if_neg (by rw [magnitude_100]; norm_num), magnitude_100]
  dsimp only
  norm_num [atan2_zero_one, degreesOf_zero]

theorem to_latlon_010 : to_latlon ⟨0, 1, 0⟩ = Except.ok ⟨0, 90⟩ := by
  unfold to_latlon
  rw [if_neg (by rw [magnitude_010]; norm_num), magnitude_010]
  dsimp only
  norm_num [atan2_zero_one, atan2_one_zero, degreesOf_zero,
    degreesOf_pi_div_two]

theorem perp_AB : intersection_perp ⟨0, 0⟩ ⟨0, 90⟩ = ⟨0, 0, 1⟩ := by
  unfold intersection_perp
  rw [to_rect_00, to_rect_090]
  unfold cross3
  dsimp only
  norm_num [normalize_001]

theorem perp_BC : intersection_perp ⟨0, 90⟩ ⟨0, -180⟩ = ⟨0, 0, 1⟩ := by
  unfold intersection_perp
  rw [to_rect_090, to_rect_0n180]
  unfold cross3
  dsimp only
  norm_num [normalize_001]

theorem rot_100 : rotated_candidate ⟨1, 0, 0⟩ ⟨0, 0, 1⟩ 1 0 = ⟨1, 0, 0⟩ := by
  unfold rotated_candidate
  dsimp only
  norm_num

theorem rot_010 : rotated_candidate ⟨0, 1, 0⟩ ⟨0, 0, 1⟩ 1 0 = ⟨0, 1, 0⟩ := by
  unfold rotated_candidate
  dsimp only
  norm_num

theorem candidate_AB :
    candidate_points ⟨0, 0⟩ qdist ⟨0, 90⟩ qdist =
      Except.ok (⟨0, 0⟩, ⟨0, 0⟩) := by
  unfold candidate_points
  rw [qdist_r, sep_AB, to_rect_00, perp_AB, ia_eval, Real.cos_zero,
    Real.sin_zero, zero_mul, neg_zero, rot_100, normalize_100, to_latlon_100]

theorem candidate_BC :
    candidate_points ⟨0, 90⟩ qdist ⟨0, -180⟩ qdist =
      Except.ok (⟨0, 90⟩, ⟨0, 90⟩) := by
  unfold candidate_points
  rw [qdist_r, sep_BC, to_rect_090, perp_BC, ia_eval, Real.cos_zero,
    Real.sin_zero, zero_mul, neg_zero, rot_010, normalize_010, to_latlon_010]

theorem cci_AB :
    calculate_circle_intersection ⟨0, 0⟩ qdist ⟨0, 90⟩ qdist =
      Except.ok (⟨0, 0⟩, ⟨0, 0⟩) := by
  unfold calculate_circle_intersection
  rw [qdist_r, sep_AB]
  rw [if_neg (not_lt.mpr (by linarith)), if_neg (by
      rw [sub_self, abs_zero]
      exact not_lt.mpr (by positivity)),
    if_neg (fun hc => pi_ne_zero (by linarith [hc.1])),
    if_neg (by
      rw [sin_pi_div_two, sin_pi_div_four, mul_one]
      positivity)]
  exact candidate_AB

theorem cci_BC :
    calculate_circle_intersection ⟨0, 90⟩ qdist ⟨0, -180⟩ qdist =
      Except.ok (⟨0, 90⟩, ⟨0, 90⟩) := by
  unfold calculate_circle_intersection
  rw [qdist_r, sep_BC]
  rw [if_neg (not_lt.mpr (by linarith)), if_neg (by
      rw [sub_self, abs_zero]
      exact not_lt.mpr (by positivity)),
    if_neg (fun hc => pi_ne_zero (by linarith [hc.1])),
    if_neg (by
      rw [sin_pi_div_two, sin_pi_div_four, mul_one]
      positivity)]
  exact candidate_BC

theorem cci_AC :
    calculate_circle_intersection ⟨0, 0⟩ qdist ⟨0, -180⟩ qdist =
      Except.error NavError.noIntersection := by
  unfold calculate_circle_intersection
  rw [qdist_r, sep_AC]
  rw [if_pos (by linarith [pi_pos])]

theorem cci_AA :
    calculate_circle_intersection ⟨0, 0⟩ qdist ⟨0, 0⟩ qdist =
      Except.error NavError.zeroDivision := by
  unfold calculate_circle_intersection
  rw [qdist_r, sep_AA]
  rw [if_neg (not_lt.mpr (by positivity)), if_neg (by
      rw [sub_self, abs_zero]
      exact lt_irrefl 0),
    if_neg (by
      rintro ⟨-, hc⟩
      rw [sub_self, abs_zero] at hc
      norm_num at hc),
    if_pos (by rw [Real.sin_zero, mul_zero])]

theorem inter_AB :
    calculate_circle_intersection sightA.get_gp sightA.get_distance_from_gp
        sightB.get_gp sightB.get_distance_from_gp =
      Except.ok (⟨0, 0⟩, ⟨0, 0⟩) := by
  rw [get_gp_A, get_gp_B, dist_A, dist_B]
  exact cci_AB

theorem inter_BC :
    calculate_circle_intersection sightB.get_gp sightB.get_distance_from_gp
        sightC.get_gp sightC.get_distance_from_gp =
      Except.ok (⟨0, 90⟩, ⟨0, 90⟩) := by
  rw [get_gp_B, get_gp_C, dist_B, dist_C]
  exact cci_BC

theorem inter_AC :
    calculate_circle_intersection sightA.get_gp sightA.get_distance_from_gp
        sightC.get_gp sightC.get_distance_from_gp =
      Except.error NavError.noIntersection := by
  rw [get_gp_A, get_gp_C, dist_A, dist_C]
  exact cci_AC

theorem inter_AA :
    calculate_circle_intersection sightA.get_gp sightA.get_distance_from_gp
        sightA.get_gp sightA.get_distance_from_gp =
      Except.error NavError.zeroDivision := by
  rw [get_gp_A, dist_A]
  exact cci_AA

theorem collect_nil (est : Option LatLon) :
    collectPositions [] est = Except.ok [] := rfl

theorem collect_cons_ok {s t : Sight} {rest : List (Sight × Sight)}
    {est : Option LatLon} {i1 i2 : LatLon} {ps : List LatLon}
    (h : calculate_circle_intersection s.get_gp s.get_distance_from_gp
        t.get_gp t.get_distance_from_gp = Except.ok (i1, i2))
    (hrest : collectPositions rest est = Except.ok ps) :
    collectPositions ((s, t) :: rest) est =
      Except.ok (choose_point est i1 i2 :: ps) := by
  simp only [collectPositions]
  rw [h, hrest]

theorem collect_cons_skip {s t : Sight} {rest : List (Sight × Sight)}
    {est : Option LatLon}
    (h : calculate_circle_intersection s.get_gp s.get_distance_from_gp
        t.get_gp t.get_distance_from_gp =
      Except.error NavError.noIntersection) :
    collectPositions ((s, t) :: rest) est = collectPositions rest est := by
  simp only [collectPositions]
  rw [h]

theorem collect_cons_zeroDiv {s t : Sight} {rest : List (Sight × Sight)}
    {est : Option LatLon}
    (h : calculate_circle_intersection s.get_gp s.get_distance_from_gp
        t.get_gp t.get_distance_from_gp =
      Except.error NavError.zeroDivision) :
    collectPositions ((s, t) :: rest) est =
      Except.error NavError.zeroDivision := by
  simp only [collectPositions]
  rw [h]

theorem allPairs_ABC :
    allPairs [sightA, sightB, sightC] =
      [(sightA, sightB), (sightA, sightC), (sightB, sightC)] := rfl

theorem allPairs_AAB :
    allPairs [sightA, sightA, sightB] =
      [(sightA, sightA), (sightA, sightB), (sightA, sightB)] := rfl

theorem collect_ABC :
    collectPositions (allPairs [sightA, sightB, sightC]) none =
      Except.ok [⟨0, 0⟩, ⟨0, 90⟩] := by
  rw [allPairs_ABC]
  have hBC : collectPositions [(sightB, sightC)] none =
      Except.ok [(⟨0, 90⟩ : LatLon)] :=
    collect_cons_ok inter_BC (collect_nil none)
  have hACBC : collectPositions [(sightA, sightC), (sightB, sightC)] none =
      Except.ok [(⟨0, 90⟩ : LatLon)] := by
    rw [collect_cons_skip inter_AC]
    exact hBC
  exact collect_cons_ok inter_AB hACBC

theorem collect_AAB :
    collectPositions (allPairs [sightA, sightA, sightB]) none =
      Except.error NavError.zeroDivision := by
  rw [allPairs_AAB]
  exact collect_cons_zeroDiv inter_AA

theorem spec_chosen_eq_filterMap (sights : List Sight) (est : Option LatLon) :
    spec_chosen_points sights est =
      (allPairs sights).filterMap (pair_choice est) := rfl

theorem collect_ok_filterMap (pairs : List (Sight × Sight))
    (est : Option LatLon) :
    ∀ ps, collectPositions pairs est = Except.ok ps →
      ps = pairs.filterMap (pair_choice est) := by
  induction pairs with
  | nil =>
    intro ps h
    rw [collect_nil] at h
    simp at h
    simp [h]
  | cons a rest ih =>
    obtain ⟨s, t⟩ := a
    intro ps h
    simp only [collectPositions] at h
    rcases hcci : calculate_circle_intersection s.get_gp
        s.get_distance_from_gp t.get_gp t.get_distance_from_gp with e | pr
    · rw [hcci] at h
      cases e with
      | noIntersection =>
        have hps := ih ps h
        rw [List.filterMap_cons]
        have hpc : pair_choice est (s, t) = none := by
          unfold pair_choice
          rw [hcci]
        rw [hpc]
        exact hps
      | validationError => simp at h
      | zeroDivision => simp at h
      | zeroVector => simp at h
      | noValidIntersections => simp at h
    · obtain ⟨i1, i2⟩ := pr
      rw [hcci] at h
      rcases hrest : collectPositions rest est with e2 | ps2
      · rw [hrest] at h
        simp at h
      · rw [hrest] at h
        have hps2 := ih ps2 hrest
        have hps : ps = choose_point est i1 i2 :: ps2 :=
          ((Except.ok.injEq _ _).mp h).symm
        rw [List.filterMap_cons]
        have hpc : pair_choice est (s, t) =
            some (choose_point est i1 i2) := by
          unfold pair_choice
          rw [hcci]
        rw [hpc, hps, hps2]

theorem get_intersections_two (s1 s2 : Sight) (est : Option LatLon) :
    get_intersections [s1, s2] est = calculate_two_sight_fix s1 s2 est := rfl

theorem get_intersections_multi (sights : List Sight) (est : Option LatLon)
    (h : sights.length ≠ 2) :
    get_intersections sights est = calculate_multi_sight_fix sights est := by
  rcases sights with _ | ⟨a, _ | ⟨b, _ | ⟨c, tl⟩⟩⟩
  · rfl
  · rfl
  · exact absurd rfl h
  · rfl

theorem multi_fix_of_collect_ok {sights : List Sight} {est : Option LatLon}
    {ps : List LatLon}
    (hok : collectPositions (allPairs sights) est = Except.ok ps) :
    calculate_multi_sight_fix sights est =
      if ps.length = 0 then Except.error NavError.noValidIntersections
      else to_latlon (normalize_vect (meanVec (ps.map to_rectangular))) := by
  unfold calculate_multi_sight_fix
  rw [hok]

theorem multi_fix_of_collect_err {sights : List Sight} {est : Option LatLon}
    {e : NavError}
    (h : collectPositions (allPairs sights) est = Except.error e) :
    calculate_multi_sight_fix sights est = Except.error e := by
  unfold calculate_multi_sight_fix
  rw [h]

theorem spec_chosen_AAB :
    spec_chosen_points [sightA, sightA, sightB] none = [⟨0, 0⟩, ⟨0, 0⟩] := by
  rw [spec_chosen_eq_filterMap, allPairs_AAB]
  have h1 : pair_choice none (sightA, sightA) = none := by
    unfold pair_choice
    rw [inter_AA]
  have h2 : pair_choice none (sightA, sightB) = some ⟨0, 0⟩ := by
    unfold pair_choice
    rw [inter_AB]
    rfl
  simp only [List.filterMap_cons, List.filterMap_nil, h1, h2]

theorem mean_dup_100 : meanVec [⟨1, 0, 0⟩, ⟨1, 0, 0⟩] = ⟨1, 0, 0⟩ := by
  unfold meanVec
  simp only [List.map_cons, List.map_nil, List.sum_cons, List.sum_nil,
    List.length_cons, List.length_nil]
  norm_num

theorem spec_avg_dup :
    spec_average_fix [⟨0, 0⟩, ⟨0, 0⟩] = Except.ok ⟨0, 0⟩ := by
  unfold spec_average_fix
  rw [show ([⟨0, 0⟩, ⟨0, 0⟩] : List LatLon).map to_rectangular =
      [⟨1, 0, 0⟩, ⟨1, 0, 0⟩] by simp [to_rect_00]]
  rw [mean_dup_100, normalize_100, to_latlon_100]

/-! ## Claim theorems -/

/-- C1: for a collection of exactly two sights whose circles of position
intersect in the candidates `p1`, `p2`, the two-sight fix with an
estimated position returns a candidate whose great-circle distance to the
estimate is no larger than either candidate's, and with no estimated
position it returns the first candidate. -/
theorem C1_two_sight_selection (s1 s2 : Sight) (e p1 p2 : LatLon)
    (h : calculate_circle_intersection s1.get_gp s1.get_distance_from_gp
        s2.get_gp s2.get_distance_from_gp = Except.ok (p1, p2)) :
    (∃ r, get_intersections [s1, s2] (some e) = Except.ok r ∧
      (r = p1 ∨ r = p2) ∧
      spherical_distance e r ≤ spherical_distance e p1 ∧
      spherical_distance e r ≤ spherical_distance e p2) ∧
    get_intersections [s1, s2] none = Except.ok p1 := by
  constructor
  · rw [get_intersections_two]
    unfold calculate_two_sight_fix
    rw [h]
    refine ⟨choose_point (some e) p1 p2, rfl, ?_⟩
    simp only [choose_point]
    by_cases hlt : spherical_distance e p1 < spherical_distance e p2
    · rw [if_pos hlt]
      exact ⟨Or.inl rfl, le_refl _, le_of_lt hlt⟩
    · rw [if_neg hlt]
      exact ⟨Or.inr rfl, not_lt.mp hlt, le_refl _⟩
  · rw [get_intersections_two]
    unfold calculate_two_sight_fix
    rw [h]
    rfl

/-- C1 witness: the two test sights at GP (0,0) and (0,90) with angular
radius pi/4 intersect, and the selection property holds for them. -/
theorem C1_witness :
    calculate_circle_intersection sightA.get_gp sightA.get_distance_from_gp
        sightB.get_gp sightB.get_distance_from_gp =
      Except.ok (⟨0, 0⟩, ⟨0, 0⟩) ∧
    ((∃ r, get_intersections [sightA, sightB] (some ⟨10, 10⟩) =
        Except.ok r ∧
      (r = (⟨0, 0⟩ : LatLon) ∨ r = (⟨0, 0⟩ : LatLon)) ∧
      spherical_distance ⟨10, 10⟩ r ≤
        spherical_distance ⟨10, 10⟩ ⟨0, 0⟩ ∧
      spherical_distance ⟨10, 10⟩ r ≤
        spherical_distance ⟨10, 10⟩ ⟨0, 0⟩) ∧
      get_intersections [sightA, sightB] none = Except.ok ⟨0, 0⟩) :=
  ⟨inter_AB, C1_two_sight_selection sightA sightB ⟨10, 10⟩ ⟨0, 0⟩ ⟨0, 0⟩
    inter_AB⟩

/-- C2 (amended): the intersection reports no intersection exactly when
`d > r1+r2`, `d < |r1-r2|`, or `d = 0` with `r1 ≠ r2`; in every other
case with `sin r2 * sin d ≠ 0` it returns two candidate points, while
`sin r2 * sin d = 0` in a non-classified case yields an unguarded
division-by-zero error instead of two points. -/
theorem C2_classification (gp1 : LatLon) (dist1 : ℝ) (gp2 : LatLon)
    (dist2 : ℝ) :
    (calculate_circle_intersection gp1 dist1 gp2 dist2 =
        Except.error NavError.noIntersection ↔
      (dist1 / EARTH_RADIUS_KM + dist2 / EARTH_RADIUS_KM < gp_sep gp1 gp2 ∨
        gp_sep gp1 gp2 < |dist1 / EARTH_RADIUS_KM - dist2 / EARTH_RADIUS_KM| ∨
        (gp_sep gp1 gp2 = 0 ∧
          dist1 / EARTH_RADIUS_KM ≠ dist2 / EARTH_RADIUS_KM))) ∧
    (¬(dist1 / EARTH_RADIUS_KM + dist2 / EARTH_RADIUS_KM < gp_sep gp1 gp2 ∨
        gp_sep gp1 gp2 < |dist1 / EARTH_RADIUS_KM - dist2 / EARTH_RADIUS_KM| ∨
        (gp_sep gp1 gp2 = 0 ∧
          dist1 / EARTH_RADIUS_KM ≠ dist2 / EARTH_RADIUS_KM)) →
      sin (dist2 / EARTH_RADIUS_KM) * sin (gp_sep gp1 gp2) ≠ 0 →
      ∃ p q, calculate_circle_intersection gp1 dist1 gp2 dist2 =
        Except.ok (p, q)) ∧
    (calculate_circle_intersection gp1 dist1 gp2 dist2 =
        Except.error NavError.zeroDivision ↔
      (¬(dist1 / EARTH_RADIUS_KM + dist2 / EARTH_RADIUS_KM < gp_sep gp1 gp2 ∨
          gp_sep gp1 gp2 <
            |dist1 / EARTH_RADIUS_KM - dist2 / EARTH_RADIUS_KM| ∨
          (gp_sep gp1 gp2 = 0 ∧
            dist1 / EARTH_RADIUS_KM ≠ dist2 / EARTH_RADIUS_KM)) ∧
        sin (dist2 / EARTH_RADIUS_KM) * sin (gp_sep gp1 gp2) = 0)) :=
  ⟨cci_noInter_iff gp1 dist1 gp2 dist2,
   cci_ok_of gp1 dist1 gp2 dist2,
   cci_zeroDiv_iff gp1 dist1 gp2 dist2⟩

/-- C2 witness: the GPs (0,0) and (0,90) with angular radius pi/4 fail
no classification check, have a nonzero denominator, and produce two
candidate points. -/
theorem C2_witness :
    ¬(qdist / EARTH_RADIUS_KM + qdist / EARTH_RADIUS_KM <
        gp_sep ⟨0, 0⟩ ⟨0, 90⟩ ∨
      gp_sep ⟨0, 0⟩ ⟨0, 90⟩ <
        |qdist / EARTH_RADIUS_KM - qdist / EARTH_RADIUS_KM| ∨
      (gp_sep ⟨0, 0⟩ ⟨0, 90⟩ = 0 ∧
        qdist / EARTH_RADIUS_KM ≠ qdist / EARTH_RADIUS_KM)) ∧
    sin (qdist / EARTH_RADIUS_KM) * sin (gp_sep ⟨0, 0⟩ ⟨0, 90⟩) ≠ 0 ∧
    ∃ p q, calculate_circle_intersection ⟨0, 0⟩ qdist ⟨0, 90⟩ qdist =
      Except.ok (p, q) := by
  have hcond : ¬(qdist / EARTH_RADIUS_KM + qdist / EARTH_RADIUS_KM <
        gp_sep ⟨0, 0⟩ ⟨0, 90⟩ ∨
      gp_sep ⟨0, 0⟩ ⟨0, 90⟩ <
        |qdist / EARTH_RADIUS_KM - qdist / EARTH_RADIUS_KM| ∨
      (gp_sep ⟨0, 0⟩ ⟨0, 90⟩ = 0 ∧
        qdist / EARTH_RADIUS_KM ≠ qdist / EARTH_RADIUS_KM)) := by
    rw [sep_AB, qdist_r]
    rintro (hc | hc | ⟨h0, hne⟩)
    · linarith
    · rw [sub_self, abs_zero] at hc
      linarith [pi_pos]
    · linarith [pi_pos]
  have hden : sin (qdist / EARTH_RADIUS_KM) * sin (gp_sep ⟨0, 0⟩ ⟨0, 90⟩) ≠
      0 := by
    rw [sep_AB, qdist_r, sin_pi_div_two, sin_pi_div_four, mul_one]
    positivity
  exact ⟨hcond, hden,
    (C2_classification ⟨0, 0⟩ qdist ⟨0, 90⟩ qdist).2.1 hcond hden⟩

/-- C2 counterexample: two coincident geographic positions with equal
angular radius pi/4 pass every classification check, yet the solver does
not return two candidate points (it divides by zero). -/
theorem C2_counterexample :
    ¬(qdist / EARTH_RADIUS_KM + qdist / EARTH_RADIUS_KM <
        gp_sep ⟨0, 0⟩ ⟨0, 0⟩ ∨
      gp_sep ⟨0, 0⟩ ⟨0, 0⟩ < |qdist / EARTH_RADIUS_KM - qdist / EARTH_RADIUS_KM| ∨
      (gp_sep ⟨0, 0⟩ ⟨0, 0⟩ = 0 ∧
        qdist / EARTH_RADIUS_KM ≠ qdist / EARTH_RADIUS_KM)) ∧
    ∀ p q : LatLon,
      calculate_circle_intersection ⟨0, 0⟩ qdist ⟨0, 0⟩ qdist ≠
        Except.ok (p, q) := by
  constructor
  · rw [sep_AA, qdist_r]
    rintro (hc | hc | ⟨-, hne⟩)
    · linarith [pi_pos]
    · rw [sub_self, abs_zero] at hc
      exact lt_irrefl 0 hc
    · exact hne rfl
  · intro p q hc
    rw [cci_AA] at hc
    exact absurd hc (by simp)

/-- C3: the claim that the denominator `sin r2 * sin d` is nonzero for
every input passing the classification is wrong — coincident geographic
positions with equal radii (here 6371 km, angular radius 1) pass all
checks and divide by zero. -/
theorem C3_zero_division_bug :
    calculate_circle_intersection ⟨0, 0⟩ 6371 ⟨0, 0⟩ 6371 =
      Except.error NavError.zeroDivision ∧
    sin ((6371 : ℝ) / EARTH_RADIUS_KM) * sin (gp_sep ⟨0, 0⟩ ⟨0, 0⟩) = 0 := by
  have hr : (6371 : ℝ) / EARTH_RADIUS_KM = 1 := by
    unfold EARTH_RADIUS_KM
    norm_num
  constructor
  · unfold calculate_circle_intersection
    rw [hr, sep_AA]
    rw [if_neg (not_lt.mpr (by norm_num)), if_neg (by
        rw [sub_self, abs_zero]
        exact lt_irrefl 0),
      if_neg (by
        rintro ⟨-, hc⟩
        rw [sub_self, abs_zero] at hc
        norm_num at hc),
      if_pos (by rw [Real.sin_zero, mul_zero])]
  · rw [sep_AA, Real.sin_zero, mul_zero]

/-- C4 (amended): provided no pair's intersection computation aborts with
a propagating arithmetic error, the fix for a collection of at least
three sights equals the specification pipeline: unit vectors of the
chosen pairwise intersection points, componentwise mean, normalization,
conversion back to a position. -/
theorem C4_multi_fix_is_spec_average (sights : List Sight)
    (est : Option LatLon) (ps : List LatLon)
    (hlen : 3 ≤ sights.length)
    (hok : collectPositions (allPairs sights) est = Except.ok ps)
    (hne : ps ≠ []) :
    get_intersections sights est =
      spec_average_fix (spec_chosen_points sights est) ∧
    ps = spec_chosen_points sights est := by
  have hps : ps = spec_chosen_points sights est := by
    rw [spec_chosen_eq_filterMap]
    exact collect_ok_filterMap _ est ps hok
  refine ⟨?_, hps⟩
  rw [get_intersections_multi sights est (by omega),
    multi_fix_of_collect_ok hok,
    if_neg (fun h0 => hne (List.length_eq_zero.mp h0))]
  unfold spec_average_fix
  rw [hps]

/-- C4 witness: for the three test sights the loop collects the two
chosen points (0,0) and (0,90) and the fix equals the specification
pipeline on them. -/
theorem C4_witness :
    3 ≤ ([sightA, sightB, sightC] : List Sight).length ∧
    collectPositions (allPairs [sightA, sightB, sightC]) none =
      Except.ok [⟨0, 0⟩, ⟨0, 90⟩] ∧
    ([⟨0, 0⟩, ⟨0, 90⟩] : List LatLon) ≠ [] ∧
    get_intersections [sightA, sightB, sightC] none =
      spec_average_fix (spec_chosen_points [sightA, sightB, sightC] none) :=
  ⟨by norm_num, collect_ABC, by simp,
    (C4_multi_fix_is_spec_average [sightA, sightB, sightC] none
      [⟨0, 0⟩, ⟨0, 90⟩] (by norm_num) collect_ABC (by simp)).1⟩

/-- C4 counterexample: a collection of three sights containing a
duplicated sight has an intersecting pair, yet the fix aborts with the
propagating division-by-zero error of the duplicated pair instead of
returning the averaged position of the chosen points. -/
theorem C4_counterexample :
    3 ≤ ([sightA, sightA, sightB] : List Sight).length ∧
    spec_chosen_points [sightA, sightA, sightB] none ≠ [] ∧
    get_intersections [sightA, sightA, sightB] none ≠
      spec_average_fix (spec_chosen_points [sightA, sightA, sightB] none) := by
  refine ⟨by norm_num, ?_, ?_⟩
  · rw [spec_chosen_AAB]
    simp
  · rw [get_intersections_multi _ _ (by norm_num),
      multi_fix_of_collect_err collect_AAB, spec_chosen_AAB, spec_avg_dup]
    simp

/-- C5 (amended): when no pair aborts with a propagating error, the
collected points are exactly the chosen points of the intersecting
pairs — non-intersecting pairs are skipped — and the fix errors exactly
when no pair yielded a point or the mean of the chosen unit vectors is
the zero vector. -/
theorem C5_skip_and_error_iff (sights : List Sight) (est : Option LatLon)
    (ps : List LatLon)
    (hlen : 3 ≤ sights.length)
    (hok : collectPositions (allPairs sights) est = Except.ok ps) :
    ps = spec_chosen_points sights est ∧
    ((∃ e, get_intersections sights est = Except.error e) ↔
      (ps = [] ∨ magnitude (meanVec (ps.map to_rectangular)) = 0)) := by
  have hps : ps = spec_chosen_points sights est := by
    rw [spec_chosen_eq_filterMap]
    exact collect_ok_filterMap _ est ps hok
  refine ⟨hps, ?_⟩
  rw [get_intersections_multi sights est (by omega),
    multi_fix_of_collect_ok hok]
  by_cases h0 : ps = []
  · rw [if_pos (by rw [h0]; rfl)]
    exact iff_of_true ⟨NavError.noValidIntersections, rfl⟩ (Or.inl h0)
  · rw [if_neg (fun hc => h0 (List.length_eq_zero.mp hc))]
    by_cases hm : magnitude (meanVec (ps.map to_rectangular)) = 0
    · have hnv : normalize_vect (meanVec (ps.map to_rectangular)) =
          meanVec (ps.map to_rectangular) := by
        unfold normalize_vect
        rw [if_pos hm]
      rw [hnv]
      unfold to_latlon
      rw [if_pos hm]
      exact iff_of_true ⟨NavError.zeroVector, rfl⟩ (Or.inr hm)
    · have hnm : magnitude (normalize_vect (meanVec
          (ps.map to_rectangular))) ≠ 0 := by
        rw [magnitude_normalize_vect hm]
        norm_num
      obtain ⟨p, hp⟩ := to_latlon_ok hnm
      rw [hp]
      refine iff_of_false ?_ ?_
      · rintro ⟨e, he⟩
        exact absurd he (by simp)
      · rintro (hc | hc)
        · exact h0 hc
        · exact hm hc

/-- C5 witness: for the three test sights one pair does not intersect and
is skipped, the other two contribute points, and the fix does not
error. -/
theorem C5_witness :
    3 ≤ ([sightA, sightB, sightC] : List Sight).length ∧
    collectPositions (allPairs [sightA, sightB, sightC]) none =
      Except.ok [⟨0, 0⟩, ⟨0, 90⟩] ∧
    (([⟨0, 0⟩, ⟨0, 90⟩] : List LatLon) =
        spec_chosen_points [sightA, sightB, sightC] none ∧
      ((∃ e, get_intersections [sightA, sightB, sightC] none =
          Except.error e) ↔
        (([⟨0, 0⟩, ⟨0, 90⟩] : List LatLon) = [] ∨
          magnitude (meanVec (([⟨0, 0⟩, ⟨0, 90⟩] : List LatLon).map
            to_rectangular)) = 0))) :=
  ⟨by norm_num, collect_ABC,
    C5_skip_and_error_iff [sightA, sightB, sightC] none [⟨0, 0⟩, ⟨0, 90⟩]
      (by norm_num) collect_ABC⟩

/-- C5 counterexample: with a duplicated sight the fix raises an error
even though another pair yields a valid intersection, so "errors exactly
when no pair intersects" fails as stated. -/
theorem C5_counterexample :
    3 ≤ ([sightA, sightA, sightB] : List Sight).length ∧
    (∃ e, get_intersections [sightA, sightA, sightB] none =
      Except.error e) ∧
    spec_chosen_points [sightA, sightA, sightB] none ≠ [] := by
  refine ⟨by norm_num, ?_, ?_⟩
  · rw [get_intersections_multi _ _ (by norm_num),
      multi_fix_of_collect_err collect_AAB]
    exact ⟨NavError.zeroDivision, rfl⟩
  · rw [spec_chosen_AAB]
    simp

/-- C6: constructing a sight with an out-of-range declination or
altitude, and constructing a collection from fewer than two sights,
fail with a validation error at construction time. -/
theorem C6_construction_validation (ra dec altitude : ℝ) (t : DateTime)
    (oh temp pr : ℝ) (ar ad : Bool) (sights : List Sight)
    (hbad : ¬(-90 ≤ dec ∧ dec ≤ 90) ∨ ¬(0 < altitude ∧ altitude < 90))
    (hlen : sights.length < 2) :
    Sight.init ra dec altitude t oh temp pr ar ad =
      Except.error NavError.validationError ∧
    SightCollection.init sights = Except.error NavError.validationError := by
  constructor
  · unfold Sight.init
    rcases hbad with h | h
    · rw [if_pos h]
    · by_cases hdec : ¬(-90 ≤ dec ∧ dec ≤ 90)
      · rw [if_pos hdec]
      · rw [if_neg hdec, if_pos h]
  · unfold SightCollection.init
    rw [if_pos hlen]

/-- C6 witness: declination 95 is rejected, altitude 0 is rejected, and
both the empty and the singleton collection are rejected. -/
theorem C6_witness :
    (¬(-90 ≤ (95 : ℝ) ∧ (95 : ℝ) ≤ 90) ∨
      ¬((0 : ℝ) < 45 ∧ (45 : ℝ) < 90)) ∧
    (¬(-90 ≤ (0 : ℝ) ∧ (0 : ℝ) ≤ 90) ∨ ¬((0 : ℝ) < 0 ∧ (0 : ℝ) < 90)) ∧
    ([] : List Sight).length < 2 ∧ ([sightA] : List Sight).length < 2 ∧
    Sight.init 0 95 45 t0 0 10 101 true true =
      Except.error NavError.validationError ∧
    Sight.init 0 0 0 t0 0 10 101 true true =
      Except.error NavError.validationError ∧
    SightCollection.init [] = Except.error NavError.validationError ∧
    SightCollection.init [sightA] =
      Except.error NavError.validationError := by
  refine ⟨Or.inl (by norm_num), Or.inr (by norm_num), by norm_num,
    by norm_num, ?_, ?_, ?_, ?_⟩
  · exact (C6_construction_validation 0 95 45 t0 0 10 101 true true []
      (Or.inl (by norm_num)) (by norm_num)).1
  · exact (C6_construction_validation 0 0 0 t0 0 10 101 true true []
      (Or.inr (by norm_num)) (by norm_num)).1
  · exact (C6_construction_validation 0 95 45 t0 0 10 101 true true []
      (Or.inl (by norm_num)) (by norm_num)).2
  · exact (C6_construction_validation 0 95 45 t0 0 10 101 true true
      [sightA] (Or.inl (by norm_num)) (by norm_num)).2

/-- C7 (amended): for a sight with GHA in `[0, 360)` the geographic
position has latitude equal to the declination and longitude `-GHA`
normalized into the closed interval `[-180, 180]`; the longitude equals
`-180` exactly when the GHA equals 180. -/
theorem C7_gp_longitude (s : Sight) (h0 : 0 ≤ s.gha) (h1 : s.gha < 360) :
    s.get_gp.lat = s.dec ∧
    s.get_gp.lon = (if s.gha ≤ 180 then -s.gha else 360 - s.gha) ∧
    -180 ≤ s.get_gp.lon ∧ s.get_gp.lon ≤ 180 ∧
    (s.get_gp.lon = -180 ↔ s.gha = 180) := by
  have hlon : s.get_gp.lon =
      (if s.gha ≤ 180 then -s.gha else 360 - s.gha) := by
    show wrapLonSub (wrapLonAdd (-s.gha)) = _
    by_cases hle : s.gha ≤ 180
    · rw [wrapLonAdd_of_ge (by linarith), wrapLonSub_of_le (by linarith),
        if_pos hle]
    · push_neg at hle
      rw [wrapLonAdd_of_lt (by linarith),
        show -s.gha + 360 = 360 - s.gha by ring,
        wrapLonAdd_of_ge (by linarith), wrapLonSub_of_le (by linarith),
        if_neg (not_le.mpr hle)]
  refine ⟨rfl, hlon, ?_, ?_, ?_⟩
  · rw [hlon]
    by_cases hle : s.gha ≤ 180
    · rw [if_pos hle]
      linarith
    · rw [if_neg hle]
      push_neg at hle
      linarith
  · rw [hlon]
    by_cases hle : s.gha ≤ 180
    · rw [if_pos hle]
      linarith
    · rw [if_neg hle]
      push_neg at hle
      linarith
  · rw [hlon]
    by_cases hle : s.gha ≤ 180
    · rw [if_pos hle]
      constructor
      · intro hc
        linarith
      · intro hc
        rw [hc]
    · rw [if_neg hle]
      push_neg at hle
      constructor
      · intro hc
        linarith
      · intro hc
        linarith

/-- C7 witness: a sight with GHA 90 gets longitude -90, latitude equal to
its declination, within the closed range. -/
theorem C7_witness :
    0 ≤ sightB.gha ∧ sightB.gha < 360 ∧
    (sightB.get_gp.lat = sightB.dec ∧
      sightB.get_gp.lon =
        (if sightB.gha ≤ 180 then -sightB.gha else 360 - sightB.gha) ∧
      -180 ≤ sightB.get_gp.lon ∧ sightB.get_gp.lon ≤ 180 ∧
      (sightB.get_gp.lon = -180 ↔ sightB.gha = 180)) :=
  ⟨by norm_num [sightB], by norm_num [sightB],
    C7_gp_longitude sightB (by norm_num [sightB]) (by norm_num [sightB])⟩

theorem floor_460 : ⌊(460.46061837 : ℝ) / 360⌋ = 1 := by
  rw [Int.floor_eq_iff]
  constructor <;> norm_num

theorem floor_280 : ⌊(280.46061837 : ℝ) / 360⌋ = 0 := by
  rw [Int.floor_eq_iff]
  constructor <;> norm_num

theorem floor_n180 : ⌊(-180 : ℝ) / 360⌋ = -1 := by
  rw [Int.floor_eq_iff]
  constructor <;> norm_num

theorem gha_c7 : calculate_gha 280.46061837 j2000_noon = 180 := by
  unfold calculate_gha j2000_noon
  dsimp only
  rw [show (280.46061837 : ℝ) + 360.98564736629 * (0 / 86400.0) +
      ((12 : ℝ) + 0 / 60.0 + 0 / 3600.0) * 15.0 = 460.46061837 by norm_num]
  rw [show pymod (460.46061837 : ℝ) 360 = 100.46061837 by
    unfold pymod
    rw [floor_460]
    norm_num]
  rw [show (100.46061837 : ℝ) - 280.46061837 = -180 by norm_num]
  unfold pymod
  rw [floor_n180]
  norm_num

/-- C7 counterexample: the sight built by the constructor from right
ascension 280.46061837 at the epoch noon has GHA exactly 180 and its
geographic position longitude is exactly -180, outside the claimed
half-open interval. -/
theorem C7_counterexample :
    Sight.init 280.46061837 0 45 j2000_noon 0 10 101 true true =
      Except.ok c7_sight ∧
    c7_sight.gha = 180 ∧ 0 ≤ c7_sight.gha ∧ c7_sight.gha < 360 ∧
    c7_sight.get_gp.lon = -180 := by
  have hgha : c7_sight.gha = 180 := gha_c7
  refine ⟨?_, hgha, by rw [hgha]; norm_num, by rw [hgha]; norm_num, ?_⟩
  · unfold Sight.init
    rw [if_neg (by norm_num), if_neg (by norm_num)]
    unfold c7_sight
    simp only [Sight.mk.injEq, pymod]
    norm_num [floor_280]
  · show wrapLonSub (wrapLonAdd (-c7_sight.gha)) = -180
    rw [hgha, wrapLonAdd_of_ge (by norm_num), wrapLonSub_of_le (by norm_num)]

/-- C8: the Greenwich hour angle is computed by exactly the claimed
steps — days since the 2000-01-01T12:00:00 epoch, the linear GMST
approximation, the 15-degrees-per-hour time-of-day rotation, and two
normalizations into `[0, 360)`. -/
theorem C8_gha_steps (ra : ℝ) (t : DateTime) :
    calculate_gha ra t = spec_gha ra t ∧
    0 ≤ calculate_gha ra t ∧ calculate_gha ra t < 360 := by
  constructor
  · unfold calculate_gha spec_gha spec_gmst spec_days_since_epoch
    norm_num
  · exact ⟨pymod_nonneg _ _ (by norm_num), pymod_lt _ _ (by norm_num)⟩

/-- C9: the great-circle distance is symmetric in its two arguments. -/
theorem C9_distance_symm (a b : LatLon) :
    spherical_distance a b = spherical_distance b a := by
  have h : haversine_a a b = haversine_a b a := by
    unfold haversine_a
    rw [show (radians b.get_lat - radians a.get_lat) / 2 =
        -((radians a.get_lat - radians b.get_lat) / 2) by ring,
      show (radians b.get_lon - radians a.get_lon) / 2 =
        -((radians a.get_lon - radians b.get_lon) / 2) by ring,
      Real.sin_neg, Real.sin_neg]
    ring
  unfold spherical_distance
  rw [h]

/-- C10: the position constructor performs no range validation — it
stores any pair of real latitude and longitude values unchanged, and the
accessors return them unchanged. -/
theorem C10_latlon_no_validation (lat lon : ℝ) :
    (LatLon.mk lat lon).lat = lat ∧ (LatLon.mk lat lon).lon = lon ∧
    (LatLon.mk lat lon).get_lat = lat ∧
    (LatLon.mk lat lon).get_lon = lon :=
  ⟨rfl, rfl, rfl, rfl⟩

end AquaNav
